import Mathlib

/-!
Shallow embedding of the KubeStellar cluster-management plugin
(`main.go`): the cluster status store, the per-cluster event log, the
onboarding/detachment orchestration workflows, the kubeconfig resolver,
and the request-handler cores.

External effects (`kubectl`/`clusteradm` process invocations, the
Kubernetes API connectivity probe, file-system writes) are modelled as
oracle outcomes supplied through environment records; the pure control
flow, string parsing, state updates and event logging are translated
from the source.  Wall-clock timestamps on events (`time.Now()`) are
external real time and are omitted from the event record.
-/

/-- Association-list lookup, modelling a read of a Go `map[string]α`. -/
def mapLookup {α : Type} (m : List (String × α)) (k : String) : Option α :=
  match m with
  | [] => none
  | (k', v) :: rest => if k' == k then some v else mapLookup rest k

/-- Association-list insert/overwrite, modelling `m[k] = v` on a Go map. -/
def mapInsert {α : Type} (m : List (String × α)) (k : String) (v : α) :
    List (String × α) :=
  match m with
  | [] => [(k, v)]
  | (k', v') :: rest =>
      if k' == k then (k, v) :: rest else (k', v') :: mapInsert rest k v

/-- Association-list removal, modelling `delete(m, k)` on a Go map. -/
def mapDelete {α : Type} (m : List (String × α)) (k : String) :
    List (String × α) :=
  match m with
  | [] => []
  | (k', v') :: rest =>
      if k' == k then mapDelete rest k else (k', v') :: mapDelete rest k

/-- One entry of the per-cluster event log (`OnboardingEvent` in the
source, minus the wall-clock timestamp, which is external real time). -/
structure OnboardingEvent where
  clusterName : String
  status : String
  message : String
  deriving Repr, DecidableEq, BEq

/-- The plugin state shared between handlers and workflows:
`clusterStatuses` is the Cluster Status Store
(`map[string]string`), `onboardingEvents` the Event Log
(`map[string][]OnboardingEvent`), both modelled as association lists. -/
structure PluginState where
  clusterStatuses : List (String × String)
  onboardingEvents : List (String × List OnboardingEvent)
  deriving Repr, DecidableEq

/-- The event history of one cluster; a missing key reads as the empty
list, as a nil Go slice does. -/
def eventsOf (st : PluginState) (clusterName : String) : List OnboardingEvent :=
  (mapLookup st.onboardingEvents clusterName).getD []

/-- Source `LogOnboardingEvent`: append an event to the cluster's log
(creating the entry when absent, as the source does for a nil slice). -/
def LogOnboardingEvent (st : PluginState) (clusterName status message : String) :
    PluginState :=
  let evs := eventsOf st clusterName ++ [⟨clusterName, status, message⟩]
  { st with onboardingEvents := mapInsert st.onboardingEvents clusterName evs }

/-- Source `ClearOnboardingEvents`: reset a cluster's event log to empty. -/
def ClearOnboardingEvents (st : PluginState) (clusterName : String) : PluginState :=
  { st with onboardingEvents := mapInsert st.onboardingEvents clusterName [] }

-- Basic association-map lemmas.

theorem mapLookup_insert {α : Type} (m : List (String × α)) (k : String) (v : α) :
    mapLookup (mapInsert m k v) k = some v := by
  induction m with
  | nil => simp [mapInsert, mapLookup]
  | cons hd tl ih =>
      obtain ⟨k', v'⟩ := hd
      by_cases h : k' == k
      · simp [mapInsert, mapLookup, h]
      · simp only [mapInsert, mapLookup, h]
        simp only [Bool.false_eq_true, if_false, mapLookup, h]
        exact ih

theorem mapLookup_delete {α : Type} (m : List (String × α)) (k : String) :
    mapLookup (mapDelete m k) k = none := by
  induction m with
  | nil => simp [mapDelete, mapLookup]
  | cons hd tl ih =>
      obtain ⟨k', v'⟩ := hd
      by_cases h : k' == k
      · simpa [mapDelete, h] using ih
      · simp only [mapDelete, h, Bool.false_eq_true, if_false, mapLookup]
        simpa [h] using ih

theorem eventsOf_log (st : PluginState) (n s m : String) :
    eventsOf (LogOnboardingEvent st n s m) n = eventsOf st n ++ [⟨n, s, m⟩] := by
  simp [eventsOf, LogOnboardingEvent, mapLookup_insert]

theorem eventsOf_clear (st : PluginState) (n : String) :
    eventsOf (ClearOnboardingEvents st n) n = [] := by
  simp [eventsOf, ClearOnboardingEvents, mapLookup_insert]

theorem clusterStatuses_log (st : PluginState) (n s m : String) :
    (LogOnboardingEvent st n s m).clusterStatuses = st.clusterStatuses := rfl

theorem clusterStatuses_clear (st : PluginState) (n : String) :
    (ClearOnboardingEvents st n).clusterStatuses = st.clusterStatuses := rfl

/-! ## External actions and workflow outcomes -/

/-- A side effect the orchestrator performs on the outside world:
file-system operations on the temporary kubeconfig and invocations of
the external `clusteradm`/`kubectl` processes. -/
inductive ExtAction where
  | validateConnectivity
  | writeTempKubeconfig (path : String) (perm : Nat)
  | removeTempKubeconfig (path : String)
  | clusteradmGetToken
  | clusteradmJoin
  | kubectlApproveCSR
  | kubectlVerifyManaged
  | kubectlCheckExists
  | kubectlDeleteManagedCluster
  | removeLocalKubeconfig (path : String)
  deriving Repr, DecidableEq, BEq

/-- Outcome of one orchestration workflow: the error value returned to
the launching goroutine, the plugin state after all event logging, and
the ordered trace of external actions performed. -/
structure WorkflowRun where
  result : Except String Unit
  state : PluginState
  trace : List ExtAction
  deriving Repr

/-- Outcomes of the external effects an onboarding run performs, one
oracle per effect.  `tokenCmdOutput` is the stdout of
`clusteradm get token` (or its exec error); `approveCSR` is the result
of the whole `kubectl get csr` / `kubectl certificate approve` sequence
of `approveClusterCSR`, whose every branch is decided by external
command results; `verifyGetOk` / `verifyStatusOutput` are the results
of the two `kubectl get managedcluster` calls in
`verifyClusterManaged`. -/
structure OnboardEnv where
  validateConnectivity : Except String Unit
  writeTempFile : Except String Unit
  tokenCmdOutput : Except String String
  joinCmd : Except String Unit
  approveCSR : Except String Unit
  verifyGetOk : Bool
  verifyStatusOutput : Except String String
  deriving Repr

/-- Whether `pat` occurs as a contiguous run of an input char list
(the recursion behind `strings.Contains`). -/
def containsChars (pat : List Char) : List Char → Bool
  | [] => pat.isEmpty
  | x :: xs => pat.isPrefixOf (x :: xs) || containsChars pat xs

/-- Go `strings.Contains s pat`. -/
def containsStr (s pat : String) : Bool :=
  containsChars pat.toList s.toList

/-- Split a char list at every occurrence of one character (the
recursion behind `strings.Split` on a one-character separator). -/
def splitOnChar (c : Char) : List Char → List (List Char)
  | [] => [[]]
  | x :: xs =>
      let r := splitOnChar c xs
      if x == c then [] :: r
      else match r with
        | [] => [x] :: []
        | y :: ys => (x :: y) :: ys

/-- Go `strings.Split(s, "\n")`. -/
def splitLines (s : String) : List String :=
  (splitOnChar (Char.ofNat 10) s.toList).map (fun l => String.mk l)

/-- Drop whitespace from both ends of a char list. -/
def trimChars (l : List Char) : List Char :=
  ((l.dropWhile Char.isWhitespace).reverse.dropWhile Char.isWhitespace).reverse

/-- Go `strings.TrimSpace`. -/
def strTrim (s : String) : String := String.mk (trimChars s.toList)

/-- The per-cluster temporary kubeconfig path
`filepath.Join(p.kubeconfigDir, fmt.Sprintf("%s-kubeconfig.yaml", clusterName))`. -/
def tempKubeconfigPath (kubeconfigDir clusterName : String) : String :=
  kubeconfigDir ++ "/" ++ clusterName ++ "-kubeconfig.yaml"

/-- Source `generateJoinToken`: run `clusteradm get token` (oracle
`cmdOutput`), then scan the output lines for the first one containing
`clusteradm join` and return it trimmed; fail when the command fails or
no line matches. -/
def generateJoinToken (cmdOutput : Except String String) : Except String String :=
  match cmdOutput with
  | .error e => .error ("failed to generate join token: " ++ e)
  | .ok output =>
      match (splitLines output).find? (fun line => containsStr line "clusteradm join") with
      | some line => .ok (strTrim line)
      | none => .error "failed to parse join token from clusteradm output"

/-- Source `joinClusterToHub`: reject a token not containing `clusteradm join`,
otherwise run the join command (oracle `cmdResult`) and wrap its
failure. -/
def joinClusterToHub (cmdResult : Except String Unit) (joinToken : String) :
    Except String Unit :=
  if containsStr joinToken "clusteradm join" then
    match cmdResult with
    | .error e => .error ("clusteradm join failed: " ++ e)
    | .ok _ => .ok ()
  else .error "invalid join token format"

/-- Source `verifyClusterManaged`: fail when the managed-cluster resource is
absent (`getOk` false), when the status query fails, or when the
availability condition is not the trimmed string `True`. -/
def verifyClusterManaged (getOk : Bool) (statusOutput : Except String String) :
    Except String Unit :=
  if getOk then
    match statusOutput with
    | .error e => .error ("failed to get cluster status: " ++ e)
    | .ok out =>
        if strTrim out == "True" then .ok ()
        else .error "cluster is not in available state"
  else .error "managed cluster resource not found"

/-- Steps 3-6 of `OnboardCluster` (token generation, join, CSR
approval, verification): the part of the body that runs after the
temporary kubeconfig was written, i.e. under the deferred
`os.Remove`.  Its trace covers only these steps; the caller appends the
deferred removal. -/
def onboardAfterTempWrite (env : OnboardEnv) (clusterName : String)
    (st : PluginState) : WorkflowRun :=
  let st := LogOnboardingEvent st clusterName "GeneratingToken"
    "Generating clusteradm join token from ITS hub"
  match generateJoinToken env.tokenCmdOutput with
  | .error e =>
      { result := .error ("failed to generate join token: " ++ e),
        state := LogOnboardingEvent st clusterName "Error"
          ("Failed to generate join token: " ++ e),
        trace := [.clusteradmGetToken] }
  | .ok joinToken =>
  let st := LogOnboardingEvent st clusterName "TokenGenerated"
    "Join token generated successfully"
  let st := LogOnboardingEvent st clusterName "Joining"
    "Joining cluster to OCM hub using clusteradm"
  match joinClusterToHub env.joinCmd joinToken with
  | .error e =>
      { result := .error ("failed to join cluster to hub: " ++ e),
        state := LogOnboardingEvent st clusterName "Error"
          ("Failed to join cluster to hub: " ++ e),
        trace := [.clusteradmGetToken, .clusteradmJoin] }
  | .ok _ =>
  let st := LogOnboardingEvent st clusterName "Joined"
    "Cluster joined to OCM hub successfully"
  let st := LogOnboardingEvent st clusterName "ApprovingCSR"
    "Waiting for and approving Certificate Signing Request"
  let st :=
    match env.approveCSR with
    | .error e => LogOnboardingEvent st clusterName "Warning"
        ("CSR approval failed, but cluster may still work: " ++ e)
    | .ok _ => LogOnboardingEvent st clusterName "CSRApproved"
        "Certificate Signing Request approved successfully"
  let st := LogOnboardingEvent st clusterName "Verifying"
    "Verifying cluster is properly managed"
  match verifyClusterManaged env.verifyGetOk env.verifyStatusOutput with
  | .error e =>
      { result := .error ("cluster verification failed: " ++ e),
        state := LogOnboardingEvent st clusterName "Error"
          ("Cluster verification failed: " ++ e),
        trace := [.clusteradmGetToken, .clusteradmJoin, .kubectlApproveCSR,
                  .kubectlVerifyManaged] }
  | .ok _ =>
      { result := .ok (),
        state := LogOnboardingEvent st clusterName "Success"
          "Cluster onboarded successfully to KubeStellar",
        trace := [.clusteradmGetToken, .clusteradmJoin, .kubectlApproveCSR,
                  .kubectlVerifyManaged] }

/-- Source `OnboardCluster`: the onboarding orchestration.  Steps: validate
connectivity, write the temporary kubeconfig with permissions `0o600`
(with a deferred removal covering every later exit path), then
`onboardAfterTempWrite`. -/
def OnboardCluster (env : OnboardEnv) (kubeconfigDir clusterName : String)
    (st : PluginState) : WorkflowRun :=
  let st := LogOnboardingEvent st clusterName "Starting"
    "Beginning cluster onboarding process"
  let st := LogOnboardingEvent st clusterName "Validating"
    "Validating cluster connectivity"
  match env.validateConnectivity with
  | .error e =>
      { result := .error ("cluster connectivity validation failed: " ++ e),
        state := LogOnboardingEvent st clusterName "Error"
          ("Cluster connectivity validation failed: " ++ e),
        trace := [.validateConnectivity] }
  | .ok _ =>
  let st := LogOnboardingEvent st clusterName "Validated"
    "Cluster connectivity validated successfully"
  let st := LogOnboardingEvent st clusterName "Preparing"
    "Preparing cluster configuration"
  let path := tempKubeconfigPath kubeconfigDir clusterName
  match env.writeTempFile with
  | .error e =>
      { result := .error ("failed to save temporary kubeconfig: " ++ e),
        state := LogOnboardingEvent st clusterName "Error"
          ("Failed to save temporary kubeconfig: " ++ e),
        trace := [.validateConnectivity, .writeTempKubeconfig path 0o600] }
  | .ok _ =>
      let rest := onboardAfterTempWrite env clusterName st
      { result := rest.result,
        state := rest.state,
        trace := [.validateConnectivity, .writeTempKubeconfig path 0o600]
          ++ rest.trace ++ [.removeTempKubeconfig path] }

/-- The goroutine body of `OnboardClusterHandler` (lines 289-300): run
`OnboardCluster`, then store `Failed` on error and `Onboarded` on
success. -/
def runOnboardWorkflow (env : OnboardEnv) (kubeconfigDir clusterName : String)
    (st : PluginState) : PluginState × List ExtAction :=
  let run := OnboardCluster env kubeconfigDir clusterName st
  match run.result with
  | .error _ =>
      ({ run.state with
         clusterStatuses := mapInsert run.state.clusterStatuses clusterName "Failed" },
       run.trace)
  | .ok _ =>
      ({ run.state with
         clusterStatuses := mapInsert run.state.clusterStatuses clusterName "Onboarded" },
       run.trace)

/-! ## Detachment -/

/-- Outcomes of the external effects a detachment run performs:
`hubGetOk` is the exit status of `kubectl get managedcluster` inside
`checkClusterExists`, `deleteCmd` the result of
`kubectl delete managedcluster` inside `removeClusterFromHub`, and
`localRemoveOk` the result of the `os.Remove` inside
`cleanupLocalResources` (which never influences any return value). -/
structure DetachEnv where
  hubGetOk : Bool
  deleteCmd : Except String Unit
  localRemoveOk : Bool
  deriving Repr

/-- Source `checkClusterExists`: report whether the `kubectl get` succeeded;
the error component is always `none` in the source (`return err == nil, nil`). -/
def checkClusterExists (hubGetOk : Bool) : Bool × Option String :=
  (hubGetOk, none)

/-- Source `removeClusterFromHub`: run `kubectl delete managedcluster` (oracle
`deleteCmd`) and wrap its failure. -/
def removeClusterFromHub (deleteCmd : Except String Unit) : Except String Unit :=
  match deleteCmd with
  | .error e => .error ("failed to delete managed cluster: " ++ e)
  | .ok _ => .ok ()

/-- Source `cleanupLocalResources`: attempt to remove the temporary kubeconfig
file; any failure is only logged, so the function always returns
success in the source. -/
def cleanupLocalResources (_localRemoveOk : Bool) : Except String Unit :=
  .ok ()

/-- The tail of `DetachCluster` after the existence and hub-removal
decisions: log `Removed`, run local cleanup (whose failure would log a
warning but cannot occur since `cleanupLocalResources` always
succeeds), and finish with success.  Trace: only the cleanup action;
the caller prepends the earlier ones. -/
def detachFinish (env : DetachEnv) (kubeconfigDir clusterName : String)
    (st : PluginState) : WorkflowRun :=
  let st := LogOnboardingEvent st clusterName "Removed"
    "Cluster removed from OCM hub"
  let st := LogOnboardingEvent st clusterName "Cleanup"
    "Cleaning up local resources"
  let st :=
    match cleanupLocalResources env.localRemoveOk with
    | .error e => LogOnboardingEvent st clusterName "Warning"
        ("Failed to clean up some local resources: " ++ e)
    | .ok _ => st
  let st := LogOnboardingEvent st clusterName "Success"
    "Cluster detached successfully from KubeStellar"
  { result := .ok (),
    state := st,
    trace := [.removeLocalKubeconfig (tempKubeconfigPath kubeconfigDir clusterName)] }

/-- The part of `DetachCluster` after the existence-check error decision:
the missing-cluster decision (fatal only without `force`), then the
hub removal (fatal only without `force`), then `detachFinish`. -/
def detachAfterCheck (env : DetachEnv) (kubeconfigDir clusterName : String)
    (force : Bool) (existsOnHub : Bool) (st : PluginState) : WorkflowRun :=
  if !existsOnHub && !force then
    { result := .error ("cluster " ++ clusterName ++ " not found in OCM hub"),
      state := LogOnboardingEvent st clusterName "Warning"
        "Cluster not found in OCM hub",
      trace := [.kubectlCheckExists] }
  else
    let st := LogOnboardingEvent st clusterName "Removing"
      "Removing cluster from OCM hub"
    match removeClusterFromHub env.deleteCmd with
    | .error e =>
        if !force then
          { result := .error ("failed to remove cluster from hub: " ++ e),
            state := LogOnboardingEvent st clusterName "Error"
              ("Failed to remove cluster from hub: " ++ e),
            trace := [.kubectlCheckExists, .kubectlDeleteManagedCluster] }
        else
          let fin := detachFinish env kubeconfigDir clusterName st
          { fin with trace := [.kubectlCheckExists, .kubectlDeleteManagedCluster] ++ fin.trace }
    | .ok _ =>
        let fin := detachFinish env kubeconfigDir clusterName st
        { fin with trace := [.kubectlCheckExists, .kubectlDeleteManagedCluster] ++ fin.trace }

/-- Source `DetachCluster`: the detachment orchestration.  Check existence on
the hub (an existence-check error is fatal only without `force`, and
`checkClusterExists` in fact never errors), then `detachAfterCheck`. -/
def DetachCluster (env : DetachEnv) (kubeconfigDir clusterName : String)
    (force : Bool) (st : PluginState) : WorkflowRun :=
  let st := LogOnboardingEvent st clusterName "Detaching"
    "Starting cluster detachment process"
  let st := LogOnboardingEvent st clusterName "Checking"
    "Checking cluster status in OCM hub"
  let chk := checkClusterExists env.hubGetOk
  match chk.2 with
  | some e =>
      if !force then
        { result := .error ("failed to check cluster status: " ++ e),
          state := LogOnboardingEvent st clusterName "Error"
            ("Failed to check cluster status: " ++ e),
          trace := [.kubectlCheckExists] }
      else detachAfterCheck env kubeconfigDir clusterName force chk.1 st
  | none => detachAfterCheck env kubeconfigDir clusterName force chk.1 st

/-- The goroutine body of `DetachClusterHandler` (lines 346-357): run
`DetachCluster`, then store `DetachmentFailed` on error and delete the
entry on success. -/
def runDetachWorkflow (env : DetachEnv) (kubeconfigDir clusterName : String)
    (force : Bool) (st : PluginState) : PluginState × List ExtAction :=
  let run := DetachCluster env kubeconfigDir clusterName force st
  match run.result with
  | .error _ =>
      ({ run.state with
         clusterStatuses := mapInsert run.state.clusterStatuses clusterName "DetachmentFailed" },
       run.trace)
  | .ok _ =>
      ({ run.state with
         clusterStatuses := mapDelete run.state.clusterStatuses clusterName },
       run.trace)

/-! ## Request-handler cores -/

/-- The acknowledgement the onboarding handler sends: the `status`
field of the JSON response, and whether a new orchestration goroutine
was launched. -/
structure OnboardAck where
  responseStatus : String
  launched : Bool
  deriving Repr, DecidableEq

/-- The core of `OnboardClusterHandler` (lines 271-307), after the
request shape has been parsed and the kubeconfig resolved: when the
cluster already has any status, answer with that status and do
nothing; otherwise store `Pending`, clear the previous event log,
log the `Initiated` event, and launch the workflow. -/
def OnboardClusterHandler (clusterName : String) (st : PluginState) :
    OnboardAck × PluginState :=
  match mapLookup st.clusterStatuses clusterName with
  | some status => ({ responseStatus := status, launched := false }, st)
  | none =>
      let st := { st with
        clusterStatuses := mapInsert st.clusterStatuses clusterName "Pending" }
      let st := ClearOnboardingEvents st clusterName
      let st := LogOnboardingEvent st clusterName "Initiated"
        "Onboarding process initiated by plugin API request"
      ({ responseStatus := "Pending", launched := true }, st)

/-- The core of `DetachClusterHandler` (lines 330-357), after the JSON
body has been parsed: the existence check only logs, then the status
is set to `Detaching` unconditionally and the detachment workflow is
launched. -/
def DetachClusterHandler (clusterName : String) (st : PluginState) : PluginState :=
  { st with clusterStatuses := mapInsert st.clusterStatuses clusterName "Detaching" }

/-- The core of `GetClusterStatusHandler`: `none` models the 404
response for an unknown cluster; otherwise the stored status and the
cluster's events are returned. -/
def GetClusterStatusHandler (st : PluginState) (clusterName : String) :
    Option (String × List OnboardingEvent) :=
  match mapLookup st.clusterStatuses clusterName with
  | none => none
  | some status => some (status, eventsOf st clusterName)

/-- The body of the `/list` response: the per-cluster entries and the
three counters. -/
structure ListResponse where
  clusters : List (String × String)
  total : Nat
  connected : Nat
  disconnected : Nat
  deriving Repr, DecidableEq

/-- Source `ListClustersHandler`: one entry per store key, `total` and
`connected` both the number of entries, `disconnected` the constant
`0` — no status value is inspected. -/
def ListClustersHandler (st : PluginState) : ListResponse :=
  let clusters := st.clusterStatuses
  { clusters := clusters,
    total := clusters.length,
    connected := clusters.length,
    disconnected := 0 }

/-! ## Kubeconfig resolver -/

/-- A cluster entry of a kubeconfig (`clientcmdapi.Cluster`); its
payload is copied wholesale by the resolver, so it is abstracted to
the server address. -/
structure ClusterEntry where
  server : String
  deriving Repr, DecidableEq

/-- A user entry of a kubeconfig (`clientcmdapi.AuthInfo`); payload
abstracted for the same reason. -/
structure AuthInfoEntry where
  token : String
  deriving Repr, DecidableEq

/-- A context entry of a kubeconfig (`clientcmdapi.Context`): the
cluster and user it refers to. -/
structure KubeContext where
  cluster : String
  authInfo : String
  deriving Repr, DecidableEq

/-- A kubeconfig (`clientcmdapi.Config`), with its three name-keyed
maps modelled as association lists. -/
structure KubeConfig where
  clusters : List (String × ClusterEntry)
  authInfos : List (String × AuthInfoEntry)
  contexts : List (String × KubeContext)
  currentContext : String
  deriving Repr, DecidableEq

/-- Source `extractContextConfig`: build a standalone kubeconfig holding
exactly the named context, the cluster and the user it references,
with `CurrentContext` set to the context name; fail when any of the
three is missing.  (`clientcmd.Write`, the serialisation to bytes, is
external and omitted.) -/
def extractContextConfig (config : KubeConfig) (contextName : String) :
    Except String KubeConfig :=
  match mapLookup config.contexts contextName with
  | none => .error ("context " ++ contextName ++ " not found")
  | some ctx =>
      match mapLookup config.clusters ctx.cluster with
      | none => .error ("cluster " ++ ctx.cluster ++ " not found")
      | some cluster =>
          match mapLookup config.authInfos ctx.authInfo with
          | none => .error ("user " ++ ctx.authInfo ++ " not found")
          | some user =>
              .ok { clusters := [(ctx.cluster, cluster)],
                    authInfos := [(ctx.authInfo, user)],
                    contexts := [(contextName, ctx)],
                    currentContext := contextName }

/-- Source `getClusterConfigFromLocal` (after the external
`clientcmd.LoadFromFile`): when the name is no cluster key, extract
the first context referencing it or fail with not-found; when it is a
cluster key, find a context referencing it (a context found under the
empty name is indistinguishable from none, as in the source where the
loop variable starts as the empty string) and extract it. -/
def getClusterConfigFromLocal (config : KubeConfig) (clusterName : String) :
    Except String KubeConfig :=
  match mapLookup config.clusters clusterName with
  | none =>
      match config.contexts.find? (fun p => p.2.cluster == clusterName) with
      | some (ctxName, _) => extractContextConfig config ctxName
      | none => .error ("cluster " ++ clusterName ++ " not found in local kubeconfig")
  | some _ =>
      match config.contexts.find? (fun p => p.2.cluster == clusterName) with
      | some (ctxName, _) =>
          if ctxName == "" then
            .error ("no context found for cluster " ++ clusterName)
          else extractContextConfig config ctxName
      | none => .error ("no context found for cluster " ++ clusterName)

/-! ## Claim theorems -/

/-- C1: when a cluster name already has any entry in the status store,
a new onboarding request answers with that existing status, launches
no orchestration task, and leaves the whole plugin state (status entry
and event log included) unchanged. -/
theorem onboard_repeat_returns_existing_status (clusterName s : String)
    (st : PluginState) (h : mapLookup st.clusterStatuses clusterName = some s) :
    OnboardClusterHandler clusterName st =
      ({ responseStatus := s, launched := false }, st) := by
  simp [OnboardClusterHandler, h]

/-- Witness for C1 at a store already holding `c1 ↦ Pending` with one
logged event. -/
theorem onboard_repeat_returns_existing_status_witness :
    mapLookup (PluginState.mk [("c1", "Pending")]
      [("c1", [⟨"c1", "Initiated", "m"⟩])]).clusterStatuses "c1" = some "Pending" ∧
    OnboardClusterHandler "c1"
      (PluginState.mk [("c1", "Pending")] [("c1", [⟨"c1", "Initiated", "m"⟩])]) =
      ({ responseStatus := "Pending", launched := false },
       PluginState.mk [("c1", "Pending")] [("c1", [⟨"c1", "Initiated", "m"⟩])]) :=
  ⟨rfl, onboard_repeat_returns_existing_status "c1" "Pending" _ rfl⟩

/-- C6: when an onboarding request is accepted (no existing status
entry), the event log of the name is reset to empty before the first
event of the new attempt is appended — the intermediate state right
after the reset has an empty log — and right after the handler the log
holds exactly the new attempt's `Initiated` event, whatever events a
prior attempt had left. -/
theorem onboard_accept_resets_event_log (clusterName : String) (st : PluginState)
    (h : mapLookup st.clusterStatuses clusterName = none) :
    eventsOf (ClearOnboardingEvents
      { st with clusterStatuses := mapInsert st.clusterStatuses clusterName "Pending" }
      clusterName) clusterName = [] ∧
    eventsOf (OnboardClusterHandler clusterName st).2 clusterName =
      [⟨clusterName, "Initiated",
        "Onboarding process initiated by plugin API request"⟩] := by
  refine ⟨eventsOf_clear _ _, ?_⟩
  simp [OnboardClusterHandler, h, eventsOf_log, eventsOf_clear]

/-- Witness for C6 at a state holding events of a prior attempt for
`c6` and no status entry. -/
theorem onboard_accept_resets_event_log_witness :
    mapLookup (PluginState.mk [] [("c6", [⟨"c6", "Error", "old failure"⟩])]).clusterStatuses "c6" = none ∧
    eventsOf (OnboardClusterHandler "c6"
      (PluginState.mk [] [("c6", [⟨"c6", "Error", "old failure"⟩])])).2 "c6" =
      [⟨"c6", "Initiated", "Onboarding process initiated by plugin API request"⟩] :=
  ⟨rfl, (onboard_accept_resets_event_log "c6"
    (PluginState.mk [] [("c6", [⟨"c6", "Error", "old failure"⟩])]) rfl).2⟩

/-- C9: the `/list` response always reports `total` and `connected`
both equal to the number of status-store entries and `disconnected`
equal to `0`, whatever the stored status values are. -/
theorem list_counts_ignore_statuses (st : PluginState) :
    (ListClustersHandler st).total = st.clusterStatuses.length ∧
    (ListClustersHandler st).connected = st.clusterStatuses.length ∧
    (ListClustersHandler st).disconnected = 0 :=
  ⟨rfl, rfl, rfl⟩

/-- C7 counterexample: for a cluster whose workflow ended with status
`Failed`, re-submitting an onboarding request does NOT re-trigger the
workflow — the duplicate check fires on any existing entry, so the
handler answers with the stored `Failed` status, launches nothing, and
leaves the state as it was. -/
theorem onboard_failed_retry_counterexample :
    OnboardClusterHandler "c7" (PluginState.mk [("c7", "Failed")] []) =
      ({ responseStatus := "Failed", launched := false },
       PluginState.mk [("c7", "Failed")] []) := rfl

/-- C7 amended: re-submitting an onboarding request for a cluster
whose stored status is `Failed` returns that status without
re-triggering the workflow; only once the entry has been removed from
the store (as detachment does) does a new request launch the workflow
again. -/
theorem onboard_failed_retry_requires_removed_entry (clusterName : String)
    (st : PluginState)
    (h : mapLookup st.clusterStatuses clusterName = some "Failed") :
    OnboardClusterHandler clusterName st =
      ({ responseStatus := "Failed", launched := false }, st) ∧
    (OnboardClusterHandler clusterName
      { st with clusterStatuses := mapDelete st.clusterStatuses clusterName }).1.launched
      = true := by
  constructor
  · simp [OnboardClusterHandler, h]
  · simp [OnboardClusterHandler, mapLookup_delete]

/-- Witness for the amended C7 at a store holding `c7f ↦ Failed`. -/
theorem onboard_failed_retry_requires_removed_entry_witness :
    mapLookup (PluginState.mk [("c7f", "Failed")] []).clusterStatuses "c7f" = some "Failed" ∧
    (OnboardClusterHandler "c7f" (PluginState.mk [("c7f", "Failed")] []) =
      ({ responseStatus := "Failed", launched := false },
       PluginState.mk [("c7f", "Failed")] []) ∧
     (OnboardClusterHandler "c7f"
       { PluginState.mk [("c7f", "Failed")] [] with
         clusterStatuses := mapDelete (PluginState.mk [("c7f", "Failed")] []).clusterStatuses "c7f" }).1.launched = true) :=
  ⟨rfl, onboard_failed_retry_requires_removed_entry "c7f"
    (PluginState.mk [("c7f", "Failed")] []) rfl⟩

/-- C10: a detachment request for a name with no store entry still
sets that name's status to `Detaching`; and when the workflow then
fails fatally (here: the name does not exist on the hub and
`force=false`), the store keeps a fresh `DetachmentFailed` entry for
the never-onboarded name, observable through the status endpoint
(which finds the entry rather than answering 404) and through the
list endpoint (which counts it). -/
theorem detach_unknown_name_leaves_failed_entry (env : DetachEnv)
    (kubeconfigDir clusterName : String) (st : PluginState)
    (h : mapLookup st.clusterStatuses clusterName = none)
    (hget : env.hubGetOk = false) :
    mapLookup (DetachClusterHandler clusterName st).clusterStatuses clusterName =
      some "Detaching" ∧
    mapLookup (runDetachWorkflow env kubeconfigDir clusterName false
      (DetachClusterHandler clusterName st)).1.clusterStatuses clusterName =
      some "DetachmentFailed" ∧
    (∃ evs, GetClusterStatusHandler (runDetachWorkflow env kubeconfigDir clusterName false
      (DetachClusterHandler clusterName st)).1 clusterName =
      some ("DetachmentFailed", evs)) ∧
    0 < (ListClustersHandler (runDetachWorkflow env kubeconfigDir clusterName false
      (DetachClusterHandler clusterName st)).1).total := by
  have h1 : mapLookup (DetachClusterHandler clusterName st).clusterStatuses clusterName
      = some "Detaching" := by
    simp [DetachClusterHandler, mapLookup_insert]
  have h2 : mapLookup (runDetachWorkflow env kubeconfigDir clusterName false
      (DetachClusterHandler clusterName st)).1.clusterStatuses clusterName =
      some "DetachmentFailed" := by
    simp [runDetachWorkflow, DetachCluster, detachAfterCheck, checkClusterExists,
      hget, mapLookup_insert]
  refine ⟨h1, h2, ⟨eventsOf (runDetachWorkflow env kubeconfigDir clusterName false
      (DetachClusterHandler clusterName st)).1 clusterName, ?_⟩, ?_⟩
  · simp [GetClusterStatusHandler, h2]
  · have : (runDetachWorkflow env kubeconfigDir clusterName false
        (DetachClusterHandler clusterName st)).1.clusterStatuses ≠ [] := by
      intro hnil
      rw [hnil] at h2
      simp [mapLookup] at h2
    simpa [ListClustersHandler, List.length_pos] using this

/-- Witness for C10 at the empty store with a hub where the name is
absent. -/
theorem detach_unknown_name_leaves_failed_entry_witness :
    mapLookup (PluginState.mk [] []).clusterStatuses "c10" = none ∧
    (DetachEnv.mk false (.ok ()) true).hubGetOk = false ∧
    mapLookup (runDetachWorkflow (DetachEnv.mk false (.ok ()) true)
      "/tmp/kubestellar-clusters" "c10" false
      (DetachClusterHandler "c10" (PluginState.mk [] []))).1.clusterStatuses "c10" =
      some "DetachmentFailed" :=
  ⟨rfl, rfl, (detach_unknown_name_leaves_failed_entry (DetachEnv.mk false (.ok ()) true)
    "/tmp/kubestellar-clusters" "c10" (PluginState.mk [] []) rfl rfl).2.1⟩

/-- C3: when the connectivity validation fails, `OnboardCluster`
returns the connectivity error with a trace of just the validation
attempt — so neither the token-generation nor the join command is ever
invoked (and no temporary kubeconfig is written) — the terminal event
of the cluster's log is the `Error` event carrying the
connectivity-failure message (the realisation of the spec's
`ConnectivityError` tag), and the goroutine then stores `Failed`. -/
theorem onboard_connectivity_failure_aborts (env : OnboardEnv)
    (kubeconfigDir clusterName e : String) (st : PluginState)
    (hv : env.validateConnectivity = .error e) :
    (OnboardCluster env kubeconfigDir clusterName st).result =
      .error ("cluster connectivity validation failed: " ++ e) ∧
    (OnboardCluster env kubeconfigDir clusterName st).trace =
      [.validateConnectivity] ∧
    ExtAction.clusteradmGetToken ∉ (OnboardCluster env kubeconfigDir clusterName st).trace ∧
    ExtAction.clusteradmJoin ∉ (OnboardCluster env kubeconfigDir clusterName st).trace ∧
    (eventsOf (OnboardCluster env kubeconfigDir clusterName st).state clusterName).getLast? =
      some ⟨clusterName, "Error", "Cluster connectivity validation failed: " ++ e⟩ ∧
    mapLookup (runOnboardWorkflow env kubeconfigDir clusterName st).1.clusterStatuses
      clusterName = some "Failed" := by
  have hr : OnboardCluster env kubeconfigDir clusterName st =
      { result := .error ("cluster connectivity validation failed: " ++ e),
        state := LogOnboardingEvent (LogOnboardingEvent (LogOnboardingEvent st
          clusterName "Starting" "Beginning cluster onboarding process")
          clusterName "Validating" "Validating cluster connectivity")
          clusterName "Error" ("Cluster connectivity validation failed: " ++ e),
        trace := [.validateConnectivity] } := by
    simp [OnboardCluster, hv]
  refine ⟨by rw [hr], by rw [hr], by rw [hr]; simp, by rw [hr]; simp, ?_, ?_⟩
  · rw [hr]
    simp [eventsOf_log]
  · simp [runOnboardWorkflow, hr, mapLookup_insert]

/-- Witness for C3 with a failing connectivity probe. -/
theorem onboard_connectivity_failure_aborts_witness :
    (OnboardEnv.mk (.error "no route") (.ok ()) (.ok "") (.ok ()) (.ok ()) true
      (.ok "True")).validateConnectivity = .error "no route" ∧
    ((OnboardCluster (OnboardEnv.mk (.error "no route") (.ok ()) (.ok "") (.ok ())
        (.ok ()) true (.ok "True")) "/tmp/kubestellar-clusters" "c3"
        (PluginState.mk [] [])).trace = [.validateConnectivity] ∧
     mapLookup (runOnboardWorkflow (OnboardEnv.mk (.error "no route") (.ok ())
        (.ok "") (.ok ()) (.ok ()) true (.ok "True")) "/tmp/kubestellar-clusters"
        "c3" (PluginState.mk [] [])).1.clusterStatuses "c3" = some "Failed") := by
  have h := onboard_connectivity_failure_aborts
    (OnboardEnv.mk (.error "no route") (.ok ()) (.ok "") (.ok ()) (.ok ()) true
      (.ok "True")) "/tmp/kubestellar-clusters" "c3" "no route"
    (PluginState.mk [] []) rfl
  exact ⟨rfl, h.2.1, h.2.2.2.2.2⟩

/-- C8: once connectivity validation passes and the temporary
kubeconfig write succeeds, the trace of the onboarding attempt holds a
write of the per-cluster temporary path with permissions `0o600`, and
— whatever the outcomes of all later steps — its very last action is
the (deferred) removal of that same path. -/
theorem onboard_temp_kubeconfig_scoped (env : OnboardEnv)
    (kubeconfigDir clusterName : String) (st : PluginState)
    (hv : env.validateConnectivity = .ok ())
    (hw : env.writeTempFile = .ok ()) :
    ExtAction.writeTempKubeconfig (tempKubeconfigPath kubeconfigDir clusterName) 0o600 ∈
      (OnboardCluster env kubeconfigDir clusterName st).trace ∧
    (OnboardCluster env kubeconfigDir clusterName st).trace.getLast? =
      some (.removeTempKubeconfig (tempKubeconfigPath kubeconfigDir clusterName)) := by
  constructor
  · simp [OnboardCluster, hv, hw]
  · simp only [OnboardCluster, hv, hw]
    exact List.getLast?_concat _

/-- Witness for C8 with every step succeeding. -/
theorem onboard_temp_kubeconfig_scoped_witness :
    ((OnboardEnv.mk (.ok ()) (.ok ()) (.ok "clusteradm join --hub-token t")
      (.ok ()) (.ok ()) true (.ok "True")).validateConnectivity = .ok () ∧
     (OnboardEnv.mk (.ok ()) (.ok ()) (.ok "clusteradm join --hub-token t")
      (.ok ()) (.ok ()) true (.ok "True")).writeTempFile = .ok ()) ∧
    (OnboardCluster (OnboardEnv.mk (.ok ()) (.ok ())
      (.ok "clusteradm join --hub-token t") (.ok ()) (.ok ()) true (.ok "True"))
      "/tmp/kubestellar-clusters" "c8" (PluginState.mk [] [])).trace.getLast? =
      some (.removeTempKubeconfig (tempKubeconfigPath "/tmp/kubestellar-clusters" "c8")) :=
  ⟨⟨rfl, rfl⟩, (onboard_temp_kubeconfig_scoped (OnboardEnv.mk (.ok ()) (.ok ())
    (.ok "clusteradm join --hub-token t") (.ok ()) (.ok ()) true (.ok "True"))
    "/tmp/kubestellar-clusters" "c8" (PluginState.mk [] []) rfl rfl).2⟩


/-- C2: when the CSR-approval step fails but every fatal step
(validation, temp-file write, token generation, join, verification)
succeeds, the workflow does not abort at the CSR step: the `Warning`
event carrying the CSR failure is logged, the verification step is
still executed, `OnboardCluster` returns success, and the goroutine
stores `Onboarded` for the cluster. -/
theorem onboard_csr_failure_still_onboarded (env : OnboardEnv)
    (kubeconfigDir clusterName tok e : String) (st : PluginState)
    (hv : env.validateConnectivity = .ok ())
    (hw : env.writeTempFile = .ok ())
    (ht : generateJoinToken env.tokenCmdOutput = .ok tok)
    (hj : joinClusterToHub env.joinCmd tok = .ok ())
    (hc : env.approveCSR = .error e)
    (hver : verifyClusterManaged env.verifyGetOk env.verifyStatusOutput = .ok ()) :
    (OnboardCluster env kubeconfigDir clusterName st).result = .ok () ∧
    ExtAction.kubectlVerifyManaged ∈
      (OnboardCluster env kubeconfigDir clusterName st).trace ∧
    (⟨clusterName, "Warning",
      "CSR approval failed, but cluster may still work: " ++ e⟩ : OnboardingEvent) ∈
      eventsOf (OnboardCluster env kubeconfigDir clusterName st).state clusterName ∧
    mapLookup (runOnboardWorkflow env kubeconfigDir clusterName st).1.clusterStatuses
      clusterName = some "Onboarded" := by
  refine ⟨?_, ?_, ?_, ?_⟩
  · simp [OnboardCluster, onboardAfterTempWrite, hv, hw, ht, hj, hc, hver]
  · simp [OnboardCluster, onboardAfterTempWrite, hv, hw, ht, hj, hc, hver]
  · simp [OnboardCluster, onboardAfterTempWrite, hv, hw, ht, hj, hc, hver,
      eventsOf_log]
  · simp [runOnboardWorkflow, OnboardCluster, onboardAfterTempWrite, hv, hw, ht,
      hj, hc, hver, mapLookup_insert]

/-- Witness for C2: CSR approval fails, everything else succeeds. -/
theorem onboard_csr_failure_still_onboarded_witness :
    generateJoinToken (OnboardEnv.mk (.ok ()) (.ok ())
      (.ok "clusteradm join --hub-token t") (.ok ()) (.error "boom") true
      (.ok "True")).tokenCmdOutput = .ok "clusteradm join --hub-token t" ∧
    ((OnboardCluster (OnboardEnv.mk (.ok ()) (.ok ())
        (.ok "clusteradm join --hub-token t") (.ok ()) (.error "boom") true
        (.ok "True")) "/tmp/kubestellar-clusters" "c2"
        (PluginState.mk [] [])).result = .ok () ∧
     mapLookup (runOnboardWorkflow (OnboardEnv.mk (.ok ()) (.ok ())
        (.ok "clusteradm join --hub-token t") (.ok ()) (.error "boom") true
        (.ok "True")) "/tmp/kubestellar-clusters" "c2"
        (PluginState.mk [] [])).1.clusterStatuses "c2" = some "Onboarded") := by
  have h := onboard_csr_failure_still_onboarded (OnboardEnv.mk (.ok ()) (.ok ())
    (.ok "clusteradm join --hub-token t") (.ok ()) (.error "boom") true
    (.ok "True")) "/tmp/kubestellar-clusters" "c2" "clusteradm join --hub-token t"
    "boom" (PluginState.mk [] []) rfl rfl rfl rfl rfl rfl
  exact ⟨rfl, h.1, h.2.2.2⟩

/-- C4: a detachment with `force=true` for a cluster absent from the
hub (the existence check reports absent) and whose hub removal fails
still runs to completion: the local-cleanup step executes (its
`os.Remove` of the per-cluster kubeconfig appears in the trace),
`DetachCluster` returns success, and the goroutine deletes the
cluster's entry from the status store. -/
theorem detach_force_nonexistent_completes (env : DetachEnv)
    (kubeconfigDir clusterName e : String) (st : PluginState)
    (hget : env.hubGetOk = false)
    (hdel : env.deleteCmd = .error e) :
    (DetachCluster env kubeconfigDir clusterName true st).result = .ok () ∧
    ExtAction.removeLocalKubeconfig (tempKubeconfigPath kubeconfigDir clusterName) ∈
      (DetachCluster env kubeconfigDir clusterName true st).trace ∧
    mapLookup (runDetachWorkflow env kubeconfigDir clusterName true st).1.clusterStatuses
      clusterName = none := by
  refine ⟨?_, ?_, ?_⟩
  · simp [DetachCluster, detachAfterCheck, detachFinish, checkClusterExists,
      removeClusterFromHub, cleanupLocalResources, hget, hdel]
  · simp [DetachCluster, detachAfterCheck, detachFinish, checkClusterExists,
      removeClusterFromHub, cleanupLocalResources, hget, hdel]
  · simp [runDetachWorkflow, DetachCluster, detachAfterCheck, detachFinish,
      checkClusterExists, removeClusterFromHub, cleanupLocalResources, hget, hdel,
      mapLookup_delete]

/-- Witness for C4: forceful detachment of `c4`, absent on the hub,
with a failing hub removal, starting from a store holding `c4`. -/
theorem detach_force_nonexistent_completes_witness :
    (DetachEnv.mk false (.error "not found") true).hubGetOk = false ∧
    ((DetachCluster (DetachEnv.mk false (.error "not found") true)
        "/tmp/kubestellar-clusters" "c4" true
        (PluginState.mk [("c4", "Onboarded")] [])).result = .ok () ∧
     mapLookup (runDetachWorkflow (DetachEnv.mk false (.error "not found") true)
        "/tmp/kubestellar-clusters" "c4" true
        (PluginState.mk [("c4", "Onboarded")] [])).1.clusterStatuses "c4" = none) := by
  have h := detach_force_nonexistent_completes
    (DetachEnv.mk false (.error "not found") true) "/tmp/kubestellar-clusters"
    "c4" "not found" (PluginState.mk [("c4", "Onboarded")] []) rfl rfl
  exact ⟨rfl, h.1, h.2.2⟩

theorem mapLookup_of_mem_nodup {α : Type} {m : List (String × α)} {k : String}
    {v : α} (hnd : (m.map Prod.fst).Nodup) (hm : (k, v) ∈ m) :
    mapLookup m k = some v := by
  induction m with
  | nil => cases hm
  | cons hd tl ih =>
      obtain ⟨k', v'⟩ := hd
      simp only [List.map_cons, List.nodup_cons] at hnd
      rcases List.mem_cons.mp hm with heq | hmem
      · cases heq
        simp [mapLookup]
      · have hk' : k' ≠ k := by
          intro hkk
          subst hkk
          exact hnd.1 (List.mem_map_of_mem Prod.fst hmem)
        have hkb : (k' == k) = false := beq_eq_false_iff_ne.mpr hk'
        simp only [mapLookup, hkb, Bool.false_eq_true, if_false]
        exact ih hnd.2 hmem

/-- C5 counterexample: the kubeconfig holds cluster `c`, user `u`, and
a context whose *name is the empty string* referencing them.  A
matching context exists and its referenced cluster and user entries
are present, yet resolution fails: with the cluster entry present the
source walks the contexts with a loop variable initialised to the
empty string, so a context named `""` is indistinguishable from no
context at all and the not-found branch fires. -/
theorem kubeconfig_resolution_counterexample :
    getClusterConfigFromLocal
      (KubeConfig.mk [("c", ClusterEntry.mk "srv")] [("u", AuthInfoEntry.mk "tok")]
        [("", KubeContext.mk "c" "u")] "") "c" =
      .error "no context found for cluster c" := rfl

/-- C5 amended: (1) when the name matches no cluster entry and no
context references it, resolution fails with the not-found error;
(2) when the context the resolver selects (the first one whose
`cluster` field equals the name, in a kubeconfig with distinct context
names) has a nonempty name and its referenced cluster and user entries
are present, the produced kubeconfig holds exactly that one cluster,
one user, and one context, with `CurrentContext` set to that context's
name. -/
theorem kubeconfig_resolution_amended (config : KubeConfig) (clusterName : String) :
    (mapLookup config.clusters clusterName = none →
      config.contexts.find? (fun p => p.2.cluster == clusterName) = none →
      getClusterConfigFromLocal config clusterName =
        .error ("cluster " ++ clusterName ++ " not found in local kubeconfig")) ∧
    (∀ ctxName ctx cl user,
      (config.contexts.map Prod.fst).Nodup →
      config.contexts.find? (fun p => p.2.cluster == clusterName) =
        some (ctxName, ctx) →
      ctxName ≠ "" →
      mapLookup config.clusters ctx.cluster = some cl →
      mapLookup config.authInfos ctx.authInfo = some user →
      getClusterConfigFromLocal config clusterName =
        .ok (KubeConfig.mk [(ctx.cluster, cl)] [(ctx.authInfo, user)]
          [(ctxName, ctx)] ctxName)) := by
  constructor
  · intro h1 h2
    simp [getClusterConfigFromLocal, h1, h2]
  · intro ctxName ctx cl user hnd hfind hne hcl hau
    have hctx : mapLookup config.contexts ctxName = some ctx :=
      mapLookup_of_mem_nodup hnd (List.mem_of_find?_eq_some hfind)
    have hne' : (ctxName == "") = false := beq_eq_false_iff_ne.mpr hne
    cases hlook : mapLookup config.clusters clusterName with
    | none =>
        simp [getClusterConfigFromLocal, hlook, hfind, extractContextConfig,
          hctx, hcl, hau]
    | some c0 =>
        simp [getClusterConfigFromLocal, hlook, hfind, hne',
          extractContextConfig, hctx, hcl, hau]

/-- Witness for the amended C5: an empty kubeconfig fails with
not-found, and a one-context kubeconfig for cluster `c` resolves to
the singleton standalone kubeconfig. -/
theorem kubeconfig_resolution_amended_witness :
    getClusterConfigFromLocal (KubeConfig.mk [] [] [] "") "nope" =
      .error "cluster nope not found in local kubeconfig" ∧
    getClusterConfigFromLocal
      (KubeConfig.mk [("c", ClusterEntry.mk "srv")] [("u", AuthInfoEntry.mk "tok")]
        [("ctx", KubeContext.mk "c" "u")] "ctx") "c" =
      .ok (KubeConfig.mk [("c", ClusterEntry.mk "srv")] [("u", AuthInfoEntry.mk "tok")]
        [("ctx", KubeContext.mk "c" "u")] "ctx") :=
  ⟨(kubeconfig_resolution_amended (KubeConfig.mk [] [] [] "") "nope").1 rfl rfl,
   (kubeconfig_resolution_amended
      (KubeConfig.mk [("c", ClusterEntry.mk "srv")] [("u", AuthInfoEntry.mk "tok")]
        [("ctx", KubeContext.mk "c" "u")] "ctx") "c").2
     "ctx" (KubeContext.mk "c" "u") (ClusterEntry.mk "srv") (AuthInfoEntry.mk "tok")
     (by simp) rfl (by decide) rfl rfl⟩
